import Mathlib

/-!
Verification of the client-side session / authentication subsystem of the
investApp frontend (Next.js + axios + TanStack Query).

The embedding models, faithfully to the TypeScript source:
  - the durable storage cell under the fixed key "auth_token"
    (an `Option String`: `none` when the key is absent, `some s` when the
    stored string is `s`; note JavaScript stores the empty string as a
    present value, and `!!s` / `if (s)` treat it as falsy),
  - the axios request interceptor of `lib/api.ts` (attaches the bearer
    header when the stored token is truthy),
  - the axios response error interceptor of `lib/api.ts` (on a 401 it
    removes the token and assigns `window.location.href = "/login"`, then
    rejects with the original error),
  - the mutation success hooks and `logout` / `isAuthenticated` of
    `hooks/use-auth.ts`,
  - the URL that `authApi.getClients` actually issues, including the axios
    semantics of its second argument (a request config whose `params`
    member supplies the query string).
-/

namespace InvestApp

/-- A client record as declared in `types/api.ts` (`interface Client`). -/
structure Client where
  id : Int
  name : String
  email : String
  is_active : Bool
deriving DecidableEq, Repr

/-- The login success payload of `types/api.ts` (`interface LoginResponse`). -/
structure LoginResponse where
  access_token : String
  token_type : String
deriving DecidableEq, Repr

/-- An HTTP failure as the response interceptor sees it: `status` models
`error.response?.status` (`none` when no response arrived, e.g. a network
failure) and `detail` models `error.response?.data.detail`, the structured
detail declared by `interface ApiError`. -/
structure HttpError where
  status : Option Nat
  detail : Option String
deriving DecidableEq, Repr

/-- JavaScript truthiness of the result of `localStorage.getItem`:
`null` is falsy, and a string is falsy exactly when it is empty
(`!!s` and `if (s)` in the source use this coercion). -/
def jsTruthy : Option String → Bool
  | none => false
  | some s => decide (s ≠ "")

/-- The observable frontend state the claims are about: the durable storage
cell under the key "auth_token", the list of navigation events issued so far
(`router.push` targets and `window.location.href` assignments, in order),
and the in-memory client registry (`useState<Client[]>`). The TanStack query
cache cleared by `queryClient.clear()` in `logout` is outside this state. -/
structure BrowserState where
  authToken : Option String
  navigations : List String
  clients : List Client
deriving DecidableEq, Repr

/-- The initial state: no stored token, no navigation yet, empty registry. -/
def initialState : BrowserState := { authToken := none, navigations := [], clients := [] }

/-- Hook result of `isAuthenticated` in `hooks/use-auth.ts`:
`if (typeof window === 'undefined') return false;
 return !!localStorage.getItem('auth_token');`.
`windowDefined` is false exactly when `typeof window === 'undefined'`, and
`storedToken` is the content of the storage cell. -/
def isAuthenticated (windowDefined : Bool) (storedToken : Option String) : Bool :=
  if windowDefined = false then false
  else jsTruthy storedToken

/-- An axios request config as far as the Gateway Client uses it: the
default headers fixed in `axios.create` (`Content-Type: application/json`)
and the `Authorization` header, absent by default. -/
structure RequestConfig where
  contentType : String
  authorization : Option String
deriving DecidableEq, Repr

/-- The config every outbound call starts from, per `axios.create` in
`lib/api.ts`: JSON content type, no Authorization header. -/
def defaultConfig : RequestConfig :=
  { contentType := "application/json", authorization := none }

/-- The request interceptor of `lib/api.ts`:
`const token = localStorage.getItem('auth_token');
 if (token) { config.headers.Authorization = template(Bearer token); }
 return config;`. -/
def requestInterceptor (storedToken : Option String) (config : RequestConfig) : RequestConfig :=
  match storedToken with
  | none => config
  | some t =>
    if t = "" then config
    else { config with authorization := some ("Bearer " ++ t) }

/-- The response error interceptor of `lib/api.ts`:
`if (error.response?.status === 401) {
   localStorage.removeItem('auth_token'); window.location.href = '/login';
 }
 return Promise.reject(error);`.
Returns the state after its side effects together with the value the
promise is rejected with (always the original error). -/
def responseInterceptorOnError (st : BrowserState) (e : HttpError) :
    BrowserState × HttpError :=
  if e.status = some 401 then
    ({ st with authToken := none, navigations := st.navigations ++ ["/login"] }, e)
  else
    (st, e)

/-- The externally visible events that mutate the modelled state, one per
writer in the source: the four mutation success hooks of
`hooks/use-auth.ts`, the response error interceptor, and `logout`. -/
inductive Event where
  | loginSuccess (tok : String)
  | registerSuccess
  | registerClientSuccess
  | clientsSuccess (cs : List Client)
  | apiError (status : Option Nat) (detail : Option String)
  | logout
deriving DecidableEq, Repr

/-- One step of the state machine, each branch transcribed from the source:
`loginSuccess` is `localStorage.setItem('auth_token', data.access_token);
router.push('/clients')`; `registerSuccess` and `registerClientSuccess` only
push their redirect URL; `clientsSuccess` is `setClients(data)`;
`apiError` is the response error interceptor; `logout` is
`localStorage.removeItem('auth_token'); queryClient.clear();
setClients([]); router.push('/login')`. -/
def step (st : BrowserState) : Event → BrowserState
  | .loginSuccess tok =>
      { st with authToken := some tok, navigations := st.navigations ++ ["/clients"] }
  | .registerSuccess =>
      { st with navigations := st.navigations ++ ["/login?message=Registration successful"] }
  | .registerClientSuccess =>
      { st with navigations := st.navigations ++ ["/clients?message=Client registration successful"] }
  | .clientsSuccess cs =>
      { st with clients := cs }
  | .apiError s d => (responseInterceptorOnError st { status := s, detail := d }).1
  | .logout =>
      { st with authToken := none, clients := [],
                navigations := st.navigations ++ ["/login"] }

/-- Run a sequence of events from a state. -/
def run (st : BrowserState) (es : List Event) : BrowserState := es.foldl step st

/-- Events whose step can falsify the stored-token truthiness: `logout`
removes the token, a 401 `apiError` removes it, and a `loginSuccess` that
stores the empty string leaves a present but falsy value. -/
def clearsAuth : Event → Bool
  | .logout => true
  | .apiError s _ => decide (s = some 401)
  | .loginSuccess t => decide (t = "")
  | _ => false

/-- Status of a TanStack mutation. -/
inductive MutationStatus where
  | idle | pending | success | error
deriving DecidableEq, Repr

/-- Resolved state of a TanStack mutation: on resolution exactly one of
`data` / `failure` is populated, matching the outcome. -/
structure MutationState (T E : Type) where
  status : MutationStatus
  data : Option T
  failure : Option E
deriving DecidableEq, Repr

/-- One complete resolution of the login mutation
(`loginMutation` of `hooks/use-auth.ts`): `outcome` is how the transport
call ends. On success the `onSuccess` hook stores the token and navigates
to `/clients`; on failure the response error interceptor runs and the
mutation ends in its error state holding the re-raised error. -/
def runLogin (st : BrowserState) (outcome : Except HttpError LoginResponse) :
    BrowserState × MutationState LoginResponse HttpError :=
  match outcome with
  | .ok r =>
      ({ st with authToken := some r.access_token,
                 navigations := st.navigations ++ ["/clients"] },
       { status := .success, data := some r, failure := none })
  | .error e =>
      let p := responseInterceptorOnError st e
      (p.1, { status := .error, data := none, failure := some p.2 })

/-- The pagination input of `authApi.getClients`
(`interface GetClientsRequest`). -/
structure GetClientsRequest where
  skip : Int
  limit : Int
deriving DecidableEq, Repr

/-- The part of an axios request config that determines the query string:
`params`, serialized as key=value pairs joined by ampersands. -/
structure AxiosRequestConfig where
  params : Option (List (String × Int))
deriving DecidableEq, Repr

/-- URL produced by `api.get(path, cfg)`: the path, plus a query string
exactly when `cfg.params` is present. -/
def axiosGetUrl (path : String) (cfg : AxiosRequestConfig) : String :=
  match cfg.params with
  | none => path
  | some ps =>
      path ++ "?" ++ String.intercalate "&" (ps.map (fun p => p.1 ++ "=" ++ toString p.2))

/-- The JavaScript object `{ skip, limit }` as the axios config it is
passed for in `authApi.getClients` (`api.get('/clients', clientData)`):
the object has no `params` member, so axios sees no query parameters;
`skip` and `limit` are unknown config keys and are dropped. -/
def configOfGetClientsRequest (_r : GetClientsRequest) : AxiosRequestConfig :=
  { params := none }

/-- The URL `authApi.getClients` actually requests for a given input. -/
def getClientsRequestUrl (r : GetClientsRequest) : String :=
  axiosGetUrl "/clients" (configOfGetClientsRequest r)

/-- Modelled from the spec: the listClients row of the external interface
table, `GET /clients?skip=&limit=`, i.e. the URL the call is specified to
issue, with `skip` and `limit` carried as query parameters. -/
def specListClientsUrl (r : GetClientsRequest) : String :=
  "/clients?skip=" ++ toString r.skip ++ "&limit=" ++ toString r.limit

/-- A step whose event does not clear auth preserves a truthy stored token. -/
theorem auth_preserved (st : BrowserState) (e : Event) (he : clearsAuth e = false)
    (h : isAuthenticated true st.authToken = true) :
    isAuthenticated true (step st e).authToken = true := by
  cases e with
  | loginSuccess t =>
      simp [clearsAuth] at he
      simp [step, isAuthenticated, jsTruthy, he]
  | registerSuccess => simpa [step] using h
  | registerClientSuccess => simpa [step] using h
  | clientsSuccess cs => simpa [step] using h
  | apiError s d =>
      simp [clearsAuth] at he
      simpa [step, responseInterceptorOnError, he] using h
  | logout => simp [clearsAuth] at he

/-- A run of events none of which clears auth preserves a truthy stored token. -/
theorem auth_preserved_run (st : BrowserState) (es : List Event)
    (hes : ∀ e ∈ es, clearsAuth e = false)
    (h : isAuthenticated true st.authToken = true) :
    isAuthenticated true (run st es).authToken = true := by
  induction es generalizing st with
  | nil => simpa [run] using h
  | cons e tl ih =>
      have h1 : isAuthenticated true (step st e).authToken = true :=
        auth_preserved st e (hes e (List.mem_cons_self e tl)) h
      have hrun : run st (e :: tl) = run (step st e) tl := rfl
      rw [hrun]
      exact ih (step st e) (fun x hx => hes x (List.mem_cons_of_mem e hx)) h1

/-- Claim C1: on every response with HTTP status 401, the interceptor removes
the persisted token (isAuthenticated is false afterwards), appends exactly one
navigation event to the login view, and rejects with the original error, so
the originating mutation still reaches its error state. -/
theorem c1_unauthorized_intercepted (st : BrowserState) (d : Option String) :
    responseInterceptorOnError st { status := some 401, detail := d } =
      ({ st with authToken := none, navigations := st.navigations ++ ["/login"] },
       { status := some 401, detail := d }) ∧
    isAuthenticated true
      (responseInterceptorOnError st { status := some 401, detail := d }).1.authToken = false ∧
    (runLogin st (.error { status := some 401, detail := d })).2.status = .error := by
  refine ⟨?_, ?_, rfl⟩ <;> simp [responseInterceptorOnError, isAuthenticated, jsTruthy]

/-- Counterexample to claim C2: after a login success whose access token is
the empty string, a token IS present under the fixed storage key
(the cell holds `some ""`, `isSome` is true) yet isAuthenticated returns
false, because the source reads the cell through JavaScript truthiness. -/
theorem c2_counterexample :
    (step initialState (.loginSuccess "")).authToken = some "" ∧
    ((step initialState (.loginSuccess "")).authToken).isSome = true ∧
    isAuthenticated true (step initialState (.loginSuccess "")).authToken = false := by
  refine ⟨rfl, rfl, by decide⟩

/-- Claim C2 (amended): isAuthenticated returns true iff the stored token is
truthy (present and non-empty); after a login success storing a non-empty
token, isAuthenticated returns true in every subsequent state until logout,
an observed 401, or a later login success storing the empty string. -/
theorem c2_auth_truthy_until_cleared (st : BrowserState) (tok : String) (es : List Event)
    (htok : tok ≠ "") (hes : ∀ e ∈ es, clearsAuth e = false) :
    isAuthenticated true (run (step st (.loginSuccess tok)) es).authToken = true ∧
    (∀ t : Option String, isAuthenticated true t = true ↔ jsTruthy t = true) := by
  constructor
  · apply auth_preserved_run _ _ hes
    simp [step, isAuthenticated, jsTruthy, htok]
  · intro t
    simp [isAuthenticated]

theorem c2_auth_truthy_until_cleared_witness :
    isAuthenticated true
      (run (step initialState (.loginSuccess "tok123"))
        [.registerSuccess, .clientsSuccess [], .apiError (some 500) (some "boom")]).authToken
      = true :=
  (c2_auth_truthy_until_cleared initialState "tok123"
    [.registerSuccess, .clientsSuccess [], .apiError (some 500) (some "boom")]
    (by decide) (by decide)).1

/-- Counterexample to claim C3: with the stored token present but equal to
the empty string, the request interceptor omits the Authorization header
even though a token is present in the session store. -/
theorem c3_counterexample :
    (some "" : Option String).isSome = true ∧
    (requestInterceptor (some "") defaultConfig).authorization = none := by
  refine ⟨rfl, by decide⟩

/-- Claim C3 (amended): the request interceptor attaches
Authorization Bearer token exactly when the stored token is truthy
(present and non-empty); otherwise it leaves the Authorization header of the
config unchanged (absent on the default config), and it never touches the
content type. -/
theorem c3_bearer_header (t : Option String) (cfg : RequestConfig) :
    (requestInterceptor t cfg).authorization =
      (if jsTruthy t then t.map (fun s => "Bearer " ++ s) else cfg.authorization) ∧
    (requestInterceptor t cfg).contentType = cfg.contentType := by
  cases t with
  | none => simp [requestInterceptor, jsTruthy]
  | some s =>
      by_cases h : s = "" <;> simp [requestInterceptor, jsTruthy, h]

/-- Claim C4: the claim says getClients issues GET /clients with skip and
limit as query parameters; evaluated on the code, the URL is always the bare
/clients, because the pagination object is passed as the axios request
config, which has no params member — it differs from the spec URL at the
failing input skip 0, limit 100. -/
theorem c4_getClients_drops_pagination :
    (∀ r : GetClientsRequest, getClientsRequestUrl r = "/clients") ∧
    getClientsRequestUrl { skip := 0, limit := 100 } = "/clients" ∧
    specListClientsUrl { skip := 0, limit := 100 } = "/clients?skip=0&limit=100" ∧
    getClientsRequestUrl { skip := 0, limit := 100 } ≠
      specListClientsUrl { skip := 0, limit := 100 } := by
  refine ⟨fun r => rfl, rfl, by decide, by decide⟩

/-- Claim C5: a login resolving with a 401 whose body detail is
Invalid credentials leaves the mutation in the error state whose failure
carries exactly that detail and no data, and the session ends
unauthenticated. -/
theorem c5_login_invalid_credentials (st : BrowserState) :
    ((runLogin st (.error { status := some 401, detail := some "Invalid credentials" })).2).status
        = .error ∧
    ((runLogin st (.error { status := some 401, detail := some "Invalid credentials" })).2).failure
        = some { status := some 401, detail := some "Invalid credentials" } ∧
    ((runLogin st (.error { status := some 401, detail := some "Invalid credentials" })).2).data
        = none ∧
    isAuthenticated true
      ((runLogin st (.error { status := some 401, detail := some "Invalid credentials" })).1).authToken
        = false := by
  refine ⟨rfl, rfl, rfl, ?_⟩
  simp [runLogin, responseInterceptorOnError, isAuthenticated, jsTruthy]

/-- Claim C6: after two consecutive successful ListClients fetches with
payloads P1 then P2, the client registry equals exactly P2 — the success
hook replaces the whole list, so nothing from P1 survives and nothing is
merged. -/
theorem c6_registry_replaced (st : BrowserState) (P1 P2 : List Client) :
    (step (step st (.clientsSuccess P1)) (.clientsSuccess P2)).clients = P2 := rfl

/-- Claim C7: on every error whose status is not 401, the response
interceptor leaves the whole state unchanged (token, navigations, registry)
and rejects with the original error unmodified. -/
theorem c7_non401_passthrough (st : BrowserState) (e : HttpError)
    (h : e.status ≠ some 401) :
    responseInterceptorOnError st e = (st, e) := by
  simp [responseInterceptorOnError, h]

theorem c7_non401_passthrough_witness :
    responseInterceptorOnError initialState
        { status := some 500, detail := some "Internal Server Error" } =
      (initialState, { status := some 500, detail := some "Internal Server Error" }) :=
  c7_non401_passthrough initialState
    { status := some 500, detail := some "Internal Server Error" } (by decide)

/-- Claim C8: when no window object exists, isAuthenticated returns false on
every storage content — the guard returns before touching storage, so the
call is total and never fails. -/
theorem c8_no_window_false (t : Option String) :
    isAuthenticated false t = false := rfl

/-- Claim C9: logout, from any state, removes the persisted token (so
isAuthenticated is false afterwards), clears the client registry to empty,
and appends one navigation to the login view. -/
theorem c9_logout (st : BrowserState) :
    step st .logout =
      { authToken := none, navigations := st.navigations ++ ["/login"], clients := [] } ∧
    isAuthenticated true (step st .logout).authToken = false := by
  exact ⟨rfl, by simp [step, isAuthenticated, jsTruthy]⟩

/-- Claim C10: the register success hook leaves the stored token and the
client registry untouched and its only effect is one navigation to the login
view, so registering a user never logs that user in. -/
theorem c10_register_only_navigates (st : BrowserState) :
    step st .registerSuccess =
      { st with navigations := st.navigations ++ ["/login?message=Registration successful"] } ∧
    (step st .registerSuccess).authToken = st.authToken ∧
    (step st .registerSuccess).clients = st.clients :=
  ⟨rfl, rfl, rfl⟩

end InvestApp
